import Mathlib

/-!
Verification development for the job-generation engine of
`generateur.py` (class `JobGenerator`).  The Python methods are
shallowly embedded as pure Lean functions: the output stream is a list
of emitted lines (each Python `f_out.write` is rendered as the lines it
produces, a trailing `"\n\n"` in the written text yielding an extra
empty line), the mutable generator object is an explicit `St` record,
and the shared forward-only input cursor is threaded as a `List String`
of remaining raw input lines.  Phase events (`:STEP` labels opened for
primary phases and intermediate uniq labels) are additionally recorded
in a ghost event list so that numbering invariants can be stated; the
event instrumentation never influences the emitted text.
Python string primitives (`in`, `startswith`, `lower`, `strip`,
`split`, slicing, `count`) are modelled by the explicit `List Char`
functions below; `lower` is modelled on ASCII letters, which is the
only case exercised by the keyword tests of the source.
-/

/-- Python `str.startswith`: `isPrefL p s` is true iff `p` is a prefix of `s`. -/
def isPrefL : List Char → List Char → Bool
  | [], _ => true
  | _ :: _, [] => false
  | a :: as, b :: bs => a == b && isPrefL as bs

/-- Python `needle in hay` on the underlying character lists. -/
def hasSubL (needle : List Char) : List Char → Bool
  | [] => isPrefL needle []
  | b :: bs => isPrefL needle (b :: bs) || hasSubL needle bs

/-- Python `needle in hay` for strings. -/
def hasSub (hay needle : String) : Bool := hasSubL needle.data hay.data

/-- Python `s.startswith(p)`. -/
def startsWithStr (s p : String) : Bool := isPrefL p.data s.data

/-- Whitespace characters stripped by Python `str.strip()` (ASCII part). -/
def isSpaceChar (c : Char) : Bool :=
  c == ' ' || c == '\t' || c == '\n' || c == '\r' || c.toNat == 11 || c.toNat == 12

/-- Python `s.strip()`. -/
def stripStr (s : String) : String :=
  ⟨((s.data.dropWhile isSpaceChar).reverse.dropWhile isSpaceChar).reverse⟩

/-- Python `s.lower()` (ASCII letters). -/
def lowerStr (s : String) : String := ⟨s.data.map Char.toLower⟩

/-- Python `s.count(c)` for a single character. -/
def countChar (c : Char) (s : String) : Nat := (s.data.filter (fun d => d == c)).length

/-- Python `s[a:b]` slicing (with `a ≤ b`). -/
def sliceStr (s : String) (a b : Nat) : String := ⟨(s.data.drop a).take (b - a)⟩

/-- Test that character number `i` (0-based, Python `s[i]`) of `s` is `c`. -/
def charAtIs (s : String) (i : Nat) (c : Char) : Bool :=
  match s.data.drop i with
  | d :: _ => d == c
  | [] => false

/-- Python `s.split(sep)` on character lists: keeps empty fields. -/
def splitL (sep : Char) : List Char → List (List Char)
  | [] => [[]]
  | c :: cs =>
    match splitL sep cs with
    | [] => [[]]
    | h :: t => if c == sep then [] :: h :: t else (c :: h) :: t

/-- Python `s.split(sep)` for strings. -/
def splitOnCharS (sep : Char) (s : String) : List String :=
  (splitL sep s.data).map (fun l => ⟨l⟩)

/-- Helper for Python no-argument `str.split()`: accumulates the current token. -/
def wsSplitAux : List Char → List Char → List (List Char)
  | [], acc => if acc.isEmpty then [] else [acc.reverse]
  | c :: cs, acc =>
    if isSpaceChar c then
      if acc.isEmpty then wsSplitAux cs [] else acc.reverse :: wsSplitAux cs []
    else wsSplitAux cs (c :: acc)

/-- Python `s.split()` (split on whitespace runs, dropping empty fields). -/
def splitWsS (s : String) : List String := (wsSplitAux s.data []).map (fun l => ⟨l⟩)

/-- Ghost record of a `:STEP` phase label opened by the engine: a primary
phase (from a phase-marker line) or an intermediate uniq label. -/
inductive Ev where
  | prim (n : Int)
  | inter (n : Int)
deriving Repr, DecidableEq

/-- Mutable state of a `JobGenerator` object: `self.phase`, `self.job_name`,
`self.nom_job2` and the two statistics counters that the engine mutates. -/
structure St where
  phase : Int
  jobName : String
  nomJob2 : String
  phasesGen : Nat
  cmdsTraitees : Nat
deriving Repr, DecidableEq

/-- Result of processing one classified line: emitted lines, new generator
state, remaining input (lookahead may consume lines), ghost phase events. -/
structure TL where
  out : List String
  st : St
  rest : List String
  evs : List Ev
deriving Repr, DecidableEq

/-- Caller-supplied generation metadata of `JobConfig` that influences the
emitted text (`date_jour`, `phase_depart`, `username`); the path fields of
the Python dataclass only select I/O endpoints and are omitted. -/
structure JobConfig where
  dateJour : String
  phaseDepart : Int
  username : String
deriving Repr, DecidableEq

/-- `JobGenerator.LIGNE_REM_1`. -/
def LIGNE_REM_1 : String :=
  "rem ######################################################################"

/-- `JobGenerator.LIGNE_REM_2`. -/
def LIGNE_REM_2 : String :=
  "rem #---------------------------------------------------------------------"

/-- `JobGenerator.LIGNE_REM_3`. -/
def LIGNE_REM_3 : String := "rem #--              "

/-- `JobGenerator.LIGNE_REM_4`. -/
def LIGNE_REM_4 : String := "rem ##################################################"

/-- `JobGenerator.LIGNE_SET_1`. -/
def LIGNE_SET_1 : String := "set NOMTRAIT="

/-- `JobGenerator.LIGNE_INF_1`. -/
def LIGNE_INF_1 : String :=
  "%PERL% %PF_SKL_PROC%\\skl_infojob.pl \"%PHASE%\" \"%NOMTRAIT%\""

/-- `JobGenerator.LIGNE_ERR_1` without its trailing newline; where the
source writes it followed by one more `"\n"` an extra empty line appears. -/
def LIGNE_ERR_1 : String :=
  "if %errorlevel% NEQ 0 set ERR=Erreur execution %NOMTRAIT% & goto ERREUR"

/-- `JobGenerator.LIGNE_ERR_2` (the constant itself carries no newline). -/
def LIGNE_ERR_2 : String :=
  "if %errorlevel% GTR 1 set ERR=Erreur execution %NOMTRAIT% & goto ERREUR"

/-- `JobGenerator.SEND_MAIL`. -/
def SEND_MAIL : String := "call %PF_SCRIPT%\\sendMail.cmd %num_phase% %nom_job%"

/-- `JobGenerator.LIGNE_COPY_1`. -/
def LIGNE_COPY_1 : String := "rem --------------------------------------------------"

/-- `JobGenerator.LIGNE_COPY_2`. -/
def LIGNE_COPY_2 : String := "rem Parametres de"

/-- `JobGenerator.CMDS_NBERR`. -/
def CMDS_NBERR : List String :=
  ["sort", "ls", "wc", "keybuild", "dbcheck", "dchain",
   "export", "pexport", "mail", "cat", "uniq", "grep",
   "join", "sed", "gawk", "7zip"]

/-- `JobGenerator.CMDS_RELANCE`. -/
def CMDS_RELANCE : List String := ["dbcheck", "dchain", "keybuild", "pexport"]

/-- `JobGenerator.CMDS_SIMPLES`. -/
def CMDS_SIMPLES : List String :=
  ["if", ":", "goto", "set", "type", "mkdir",
   "rmdir", "echo", "find", "ping", "dir"]

/-- `JobGenerator.lire_ligne`: next non-blank stripped line and the rest of
the stream; `(none, [])` models `(None, True)` at end of input. -/
def lireLigne : List String → Option String × List String
  | [] => (none, [])
  | l :: ls =>
    let t := stripStr l
    if t = "" then lireLigne ls else (some t, ls)

/-- `JobGenerator._write_bloc_relance` (`phase_retour` defaulting handled at
call sites by passing `phasePrec` twice). -/
def blocRelance (phasePrec phaseRetour : Int) : List String :=
  ["if %errorlevel% EQU 0 goto finSTEP" ++ toString phasePrec,
   "if %errorlevel% NEQ 0 set ERR=Erreur execution %NOMTRAIT% & set /a nberr = %nberr%+1",
   "if %nberr% EQU 1 " ++ SEND_MAIL ++ " & goto STEP" ++ toString phaseRetour,
   "if %nberr% GTR 1 goto ERREUR",
   ":finSTEP" ++ toString phasePrec,
   ""]

/-- Statistics bump shared by the command emitters (`self.stats["commandes_traitees"] += 1`). -/
def incCmd (st : St) : St := { st with cmdsTraitees := st.cmdsTraitees + 1 }

/-- `JobGenerator._traiter_ligne_rem`: phase-marker emission.  The guard in
`_traiter_ligne` guarantees at least two hyphens, hence at least three
split fields; the verbatim fallback of the source is kept for fewer. -/
def traiterLigneRem (st : St) (line : String) : List String × St × List Ev :=
  match splitOnCharS '-' line with
  | _ :: p1 :: p2 :: _ =>
    ((if CMDS_NBERR.any (fun s => hasSub line s) then ["set nberr=0"] else []) ++
     [":STEP" ++ toString st.phase,
      LIGNE_REM_4,
      "set PHASE=" ++ st.jobName ++ " - " ++ toString st.phase ++ " - " ++ stripStr p2,
      LIGNE_REM_4,
      "set num_phase=" ++ toString st.phase,
      LIGNE_SET_1 ++ stripStr p1,
      LIGNE_INF_1,
      ""],
     { st with phase := st.phase + 10, phasesGen := st.phasesGen + 1 },
     [Ev.prim st.phase])
  | _ => ([line], st, [])

/-- `JobGenerator._traiter_cmd_fm_prog`: managed `%FM_PROG%` commands. -/
def traiterCmdFmProg (st : St) (line : String) : List String × St :=
  let phasePrec := st.phase - 10
  let out :=
    if CMDS_RELANCE.any (fun c => hasSub line c) then
      (if hasSub line "pexport" then [line] else [line ++ " >> %JOURNAL% 2>&1 "]) ++
        blocRelance phasePrec phasePrec
    else if hasSub line "pimport" then
      line :: (if ¬ hasSub line "," then blocRelance phasePrec phasePrec
               else [LIGNE_ERR_1, ""])
    else
      line :: (if line.length > 29 ∧ sliceStr line 25 29 ∈ ["5100", "5101", "5102"]
               then [LIGNE_ERR_2]
               else [LIGNE_ERR_1, ""])
  (out, incCmd st)

/-- `JobGenerator._traiter_uniq`: lookahead for a second uniq line.  In the
non-pair and end-of-input branches the fetched line is not re-emitted,
exactly as in the source. -/
def traiterUniq (st : St) (input : List String) (phasePrec : Int) :
    List String × List String × List Ev :=
  match lireLigne input with
  | (some next, rest) =>
    if hasSub next "uniq" then
      let phaseInter := st.phase - 5
      (["if %errorlevel% EQU 0 goto STEP" ++ toString phaseInter,
        "if %errorlevel% NEQ 0 set ERR=Erreur execution %NOMTRAIT% & set /a nberr = %nberr%+1",
        "if %nberr% EQU 1 " ++ SEND_MAIL ++ " & goto STEP" ++ toString phasePrec,
        "if %nberr% GTR 1 goto ERREUR",
        ":STEP" ++ toString phaseInter,
        next ++ " 2>> %JOURNAL%"] ++ blocRelance phasePrec phaseInter,
       rest, [Ev.inter phaseInter])
    else (blocRelance phasePrec phasePrec, rest, [])
  | (none, rest) => (blocRelance phasePrec phasePrec, rest, [])

/-- `JobGenerator._traiter_cmd_pf_exe`: external `%PF_EXE` tools. -/
def traiterCmdPfExe (st : St) (line : String) (input : List String) : TL :=
  let phasePrec := st.phase - 10
  let cmdLine := line ++ " 2>> %JOURNAL%"
  if hasSub line "grep" then
    ⟨cmdLine ::
      ["if %errorlevel% LSS 2 goto finSTEP" ++ toString phasePrec,
       "if %errorlevel% GTR 1 set ERR=Erreur execution %NOMTRAIT% & set /a nberr = %nberr%+1",
       "if %nberr% EQU 1 " ++ SEND_MAIL ++ " & goto STEP" ++ toString phasePrec,
       "if %nberr% GTR 1 goto ERREUR",
       ":finSTEP" ++ toString phasePrec,
       ""],
     incCmd st, input, []⟩
  else if hasSub line "uniq" then
    match traiterUniq st input phasePrec with
    | (o, rest, evs) => ⟨cmdLine :: o, incCmd st, rest, evs⟩
  else if hasSub line "unix2dos" || hasSub line "touch" then
    ⟨[cmdLine, LIGNE_ERR_1], incCmd st, input, []⟩
  else
    ⟨cmdLine :: blocRelance phasePrec phasePrec, incCmd st, input, []⟩

/-- `JobGenerator._traiter_mouvement_fichier`: move/copy parameter block. -/
def traiterMouvement (st : St) (line : String) : List String × St :=
  match splitWsS line with
  | _ :: p1 :: p2 :: _ =>
    ([LIGNE_COPY_1,
      LIGNE_COPY_2 ++ " " ++ stripStr (sliceStr line 0 4),
      "echo Source :  " ++ p1 ++ " >> %JOURNAL% 2>&1",
      "echo Cible :   " ++ p2 ++ " >> %JOURNAL% 2>&1",
      LIGNE_COPY_1, "",
      line ++ " >> %JOURNAL% 2>&1", ""],
     incCmd st)
  | _ => ([line], st)

/-- Inner scan of `JobGenerator._traiter_boucle_for`: consume lines until a
bare closing parenthesis or end of input.  Each iteration consumes at
least one raw input line, so fuel `input.length + 1` at the call site
makes the fuel bound unreachable. -/
def forScan (fuel : Nat) (input : List String) : List String × List String :=
  match fuel with
  | 0 => ([], input)
  | fuel + 1 =>
    match lireLigne input with
    | (none, rest) => ([], rest)
    | (some inner, rest) =>
      if inner = ")" then ([inner], rest)
      else if ¬ (lowerStr (sliceStr inner 0 3) = "rem") then
        match forScan fuel rest with
        | (o, r) => ((inner ++ " 2>> %JOURNAL%") :: LIGNE_ERR_2 :: o, r)
      else
        match forScan fuel rest with
        | (o, r) => (inner :: o, r)

/-- `JobGenerator._traiter_boucle_for`: emit the loop-open line; scan the
block only when its parentheses are unbalanced. -/
def traiterBoucleFor (st : St) (line : String) (input : List String) : TL :=
  if countChar '(' line ≠ countChar ')' line then
    match forScan (input.length + 1) input with
    | (o, rest) => ⟨line :: o, st, rest, []⟩
  else ⟨[line], st, input, []⟩

/-- `JobGenerator._traiter_ligne`: the ordered line classifier and
dispatcher.  A `rem` line that fails the phase-marker test produces no
output at all, exactly as in the source. -/
def traiterLigne (st : St) (line : String) (input : List String) : TL :=
  let ll := lowerStr line
  if startsWithStr ll "rem" then
    if line.length > 4 ∧ charAtIs line 4 '-' ∧ countChar '-' line ≥ 2 then
      match traiterLigneRem st line with
      | (o, st2, evs) => ⟨o, st2, input, evs⟩
    else ⟨[], st, input, []⟩
  else if hasSub line "%FM_PROG%" then
    match traiterCmdFmProg st line with
    | (o, st2) => ⟨o, st2, input, []⟩
  else if hasSub line "%PF_EXE" then
    traiterCmdPfExe st line input
  else if hasSub ll "forfiles" then
    ⟨[line ++ " >> %JOURNAL% 2>&1", ""], st, input, []⟩
  else if startsWithStr ll "for " || startsWithStr ll "for%%" then
    traiterBoucleFor st line input
  else if CMDS_SIMPLES.any (fun c => startsWithStr ll c) then
    ⟨[line], st, input, []⟩
  else if hasSub ll "call" || hasSub ll "program files" then
    ⟨[line, LIGNE_ERR_1, ""], incCmd st, input, []⟩
  else if startsWithStr ll "move" || startsWithStr ll "copy" then
    match traiterMouvement st line with
    | (o, st2) => ⟨o, st2, input, []⟩
  else if startsWithStr ll "del" then
    ⟨[line ++ " >> %JOURNAL% 2>&1"], st, input, []⟩
  else if hasSub line "%PERL%" then
    ⟨(line ++ " >> %JOURNAL% 2>&1") ::
       (if hasSub ll "sendmail" then blocRelance (st.phase - 10) (st.phase - 10)
        else [LIGNE_ERR_1, ""]),
     st, input, []⟩
  else ⟨[line], st, input, []⟩

/-- Accumulated result of the body loop of `JobGenerator.generer`. -/
structure BL where
  out : List String
  st : St
  evs : List Ev
deriving Repr, DecidableEq

/-- Body loop of `JobGenerator.generer` with explicit fuel; each iteration
consumes at least one raw input line, so fuel `input.length` (used by
`runBody`) can never run out before end of input. -/
def bodyLoop (fuel : Nat) (st : St) (input : List String) : BL :=
  match fuel with
  | 0 => ⟨[], st, []⟩
  | fuel + 1 =>
    match lireLigne input with
    | (none, _) => ⟨[], st, []⟩
    | (some line, rest) =>
      let r := traiterLigne st line rest
      let b := bodyLoop fuel r.st r.rest
      ⟨r.out ++ b.out, b.st, r.evs ++ b.evs⟩

/-- The full body loop of one generation run. -/
def runBody (st : St) (input : List String) : BL := bodyLoop input.length st input

/-- Example generator state used by the concrete witnesses below. -/
def exSt : St := ⟨10, "job.bat", "job", 0, 0⟩

/-- Example configuration used by the concrete witnesses below. -/
def exCfg : JobConfig := ⟨"01/01/2026", 0, "USER"⟩

/-- Primary phase numbers recorded by a run, in emission order. -/
def primsOf (evs : List Ev) : List Int :=
  evs.filterMap (fun e => match e with | Ev.prim n => some n | Ev.inter _ => none)

/-- Intermediate uniq labels recorded by a run, in emission order. -/
def intersOf (evs : List Ev) : List Int :=
  evs.filterMap (fun e => match e with | Ev.inter n => some n | Ev.prim _ => none)

/-- Input used by the C3 witness: two markers around a uniq pair. -/
def c3Input : List String :=
  ["rem -A-B", "%PF_EXE%\\uniq.exe a", "%PF_EXE%\\uniq.exe b", "rem -C-D"]

/-- `JobGenerator._write_entete`: fixed header block. -/
def entete (nomJob2 dateJour auteur libJob descJob username : String) : List String :=
  ["@echo off",
   LIGNE_REM_1, LIGNE_REM_2,
   "rem #-- Nom     : " ++ nomJob2,
   "rem #-- Version : 1.00                   Date : " ++ dateJour,
   "rem #-- Auteur  : " ++ auteur,
   LIGNE_REM_2,
   "rem #-- Objet   : " ++ libJob,
   "rem #--           " ++ descJob,
   LIGNE_REM_2,
   "rem #-- Commentaires :",
   LIGNE_REM_3,
   LIGNE_REM_2,
   "rem #--               Auteur   |      Date",
   LIGNE_REM_2,
   LIGNE_REM_3 ++ " " ++ username ++ "  |    " ++ dateJour,
   LIGNE_REM_2, LIGNE_REM_1, ""]

/-- `JobGenerator._write_initialisation`: environment-loading block. -/
def initialisation (nomJob2 : String) : List String :=
  ["rem Chargement du .profile",
   "call %0\\..\\..\\..\\skl\\param\\profile.bat",
   "",
   "rem R\xe9cup des param\xe8tres",
   "set SCHEDULE_NAME_PLAN=%1",
   "", "",
   "rem Chargement de l\x27environnement",
   "%PF_PERLENV%perl %0\\..\\..\\..\\skl\\param\\skl_uni_env.pl %0 > %0_env.bat",
   "call %0_env.bat",
   "del  %0_env.bat",
   "",
   "rem Chargement de l\x27env sp\xe9cif",
   "if exist %PF_PARAM%\\%PF_APPLI%_appli.bat call %PF_PARAM%\\%PF_APPLI%_appli.bat",
   "",
   "set nom_job=" ++ nomJob2,
   "",
   LIGNE_REM_4,
   "set PHASE=00 - D\xe9but du job",
   LIGNE_REM_4,
   "%PERL% %PF_SKL_PROC%\\skl_debutjob.pl",
   "",
   "%D% && cd %FM_PROG%",
   "rem goto STEP000"]

/-- `JobGenerator._write_fin_job`: trailer with `:ERREUR` and `:FIN`. -/
def finJob : List String :=
  ["",
   LIGNE_REM_4,
   "set PHASE=99 - Fin du job",
   LIGNE_REM_4,
   "%PERL% %PF_SKL_PROC%\\skl_finjob.pl",
   "",
   "goto FIN",
   "", "",
   LIGNE_REM_4,
   "rem GESTION DES ERREURS",
   LIGNE_REM_4,
   "",
   ":ERREUR",
   "%PERL% %PF_SKL_PROC%\\skl_message.pl F %ERRORLEVEL% %ERR%",
   "copy /y %fmdata%*.%numVERSION% %D%\\prod\\%nomCHAINE%\\save\\erreur\\ >> %JOURNAL% 2>&1",
   "%EXIT% 8",
   "exit   8",
   "",
   ":FIN",
   "%EXIT% 0",
   ""]

/-- Header helper of `JobGenerator.generer`: `line, eof = lire_ligne(f);
x = line if not eof else dflt`. -/
def readOr (input : List String) (dflt : String) : String × List String :=
  match lireLigne input with
  | (some l, rest) => (l, rest)
  | (none, rest) => (dflt, rest)

/-- `JobGenerator.generer` on decoded input lines: resets the per-run
state, reads the four header lines, emits header (plus initialisation
unless the job name contains `.cmd`), runs the body loop and appends the
trailer.  `none` models the `return False` on an empty source; file
existence checks and I/O exceptions are outside the embedding. -/
def generer (g : St) (cfg : JobConfig) (input : List String) :
    Option (List String) × St :=
  let phase0 : Int := if cfg.phaseDepart = 0 then 10 else cfg.phaseDepart
  let g1 : St := { g with phase := phase0, phasesGen := 0, cmdsTraitees := 0 }
  match lireLigne input with
  | (none, _) => (none, g1)
  | (some jobName, rest0) =>
    let nomJob2 := (splitOnCharS '.' jobName).headD ""
    let g2 : St := { g1 with jobName := jobName, nomJob2 := nomJob2 }
    match readOr rest0 "UNKNOWN" with
    | (auteur, rest1) =>
      match readOr rest1 "" with
      | (libJob, rest2) =>
        match readOr rest2 "" with
        | (descJob, rest3) =>
          let head := entete nomJob2 cfg.dateJour auteur libJob descJob cfg.username
          let ini := if ¬ hasSub jobName ".cmd" then initialisation nomJob2 else []
          let b := runBody g2 rest3
          (some (head ++ ini ++ b.out ++ finJob), b.st)

/-- Expanded form of the retry scaffold with the `SEND_MAIL` literal merged
into the notification line. -/
lemma blocRelance_expand (p r : Int) : blocRelance p r =
    ["if %errorlevel% EQU 0 goto finSTEP" ++ toString p,
     "if %errorlevel% NEQ 0 set ERR=Erreur execution %NOMTRAIT% & set /a nberr = %nberr%+1",
     "if %nberr% EQU 1 call %PF_SCRIPT%\\sendMail.cmd %num_phase% %nom_job% & goto STEP" ++ toString r,
     "if %nberr% GTR 1 goto ERREUR",
     ":finSTEP" ++ toString p,
     ""] := rfl

/-- C1: a managed `%FM_PROG%` line containing a retry-family keyword, and a
retryable (default-family) external `%PF_EXE%` tool line, are each followed
immediately by the fixed retry scaffold parameterized by the previous phase
number `P = current_phase - 10`: the EQU-0 success jump to `finSTEP P`, the
NEQ-0 line setting ERR and incrementing nberr, the nberr-EQU-1 sendMail call
with retry jump to `STEP P`, the nberr-GTR-1 escalation to ERREUR, and the
`:finSTEP P` label (followed by the blank separator line), in that order. -/
theorem c1_retry_scaffold :
    (∀ (st : St) (line : String) (input : List String),
      startsWithStr (lowerStr line) "rem" = false →
      hasSub line "%FM_PROG%" = true →
      CMDS_RELANCE.any (fun c => hasSub line c) = true →
      (traiterLigne st line input).out =
        (if hasSub line "pexport" then [line] else [line ++ " >> %JOURNAL% 2>&1 "]) ++
          ["if %errorlevel% EQU 0 goto finSTEP" ++ toString (st.phase - 10),
           "if %errorlevel% NEQ 0 set ERR=Erreur execution %NOMTRAIT% & set /a nberr = %nberr%+1",
           "if %nberr% EQU 1 call %PF_SCRIPT%\\sendMail.cmd %num_phase% %nom_job% & goto STEP" ++
             toString (st.phase - 10),
           "if %nberr% GTR 1 goto ERREUR",
           ":finSTEP" ++ toString (st.phase - 10),
           ""]) ∧
    (∀ (st : St) (line : String) (input : List String),
      startsWithStr (lowerStr line) "rem" = false →
      hasSub line "%FM_PROG%" = false →
      hasSub line "%PF_EXE" = true →
      hasSub line "grep" = false →
      hasSub line "uniq" = false →
      hasSub line "unix2dos" = false →
      hasSub line "touch" = false →
      (traiterLigne st line input).out =
        [line ++ " 2>> %JOURNAL%"] ++
          ["if %errorlevel% EQU 0 goto finSTEP" ++ toString (st.phase - 10),
           "if %errorlevel% NEQ 0 set ERR=Erreur execution %NOMTRAIT% & set /a nberr = %nberr%+1",
           "if %nberr% EQU 1 call %PF_SCRIPT%\\sendMail.cmd %num_phase% %nom_job% & goto STEP" ++
             toString (st.phase - 10),
           "if %nberr% GTR 1 goto ERREUR",
           ":finSTEP" ++ toString (st.phase - 10),
           ""]) := by
  constructor
  · intro st line input h1 h2 h3
    unfold traiterLigne traiterCmdFmProg
    simp [h1, h2, h3, blocRelance_expand]
  · intro st line input h1 h2 h3 h4 h5 h6 h7
    unfold traiterLigne traiterCmdPfExe
    simp [h1, h2, h3, h4, h5, h6, h7, blocRelance_expand]

/-- Witness for C1: both scaffold families evaluated on concrete lines with
`exSt` (current phase 10, so `P = 0`). -/
theorem c1_retry_scaffold_witness :
    (traiterLigne exSt "%FM_PROG%\\dbcheck.exe data" []).out =
      (if hasSub "%FM_PROG%\\dbcheck.exe data" "pexport"
       then ["%FM_PROG%\\dbcheck.exe data"]
       else ["%FM_PROG%\\dbcheck.exe data >> %JOURNAL% 2>&1 "]) ++
        ["if %errorlevel% EQU 0 goto finSTEP" ++ toString (exSt.phase - 10),
         "if %errorlevel% NEQ 0 set ERR=Erreur execution %NOMTRAIT% & set /a nberr = %nberr%+1",
         "if %nberr% EQU 1 call %PF_SCRIPT%\\sendMail.cmd %num_phase% %nom_job% & goto STEP" ++
           toString (exSt.phase - 10),
         "if %nberr% GTR 1 goto ERREUR",
         ":finSTEP" ++ toString (exSt.phase - 10),
         ""] ∧
    (traiterLigne exSt "%PF_EXE%\\cat.exe f" []).out =
      ["%PF_EXE%\\cat.exe f 2>> %JOURNAL%"] ++
        ["if %errorlevel% EQU 0 goto finSTEP" ++ toString (exSt.phase - 10),
         "if %errorlevel% NEQ 0 set ERR=Erreur execution %NOMTRAIT% & set /a nberr = %nberr%+1",
         "if %nberr% EQU 1 call %PF_SCRIPT%\\sendMail.cmd %num_phase% %nom_job% & goto STEP" ++
           toString (exSt.phase - 10),
         "if %nberr% GTR 1 goto ERREUR",
         ":finSTEP" ++ toString (exSt.phase - 10),
         ""] := by
  refine ⟨?_, ?_⟩
  · exact c1_retry_scaffold.1 exSt "%FM_PROG%\\dbcheck.exe data" []
      (by decide) (by decide) (by decide)
  · exact c1_retry_scaffold.2 exSt "%PF_EXE%\\cat.exe f" []
      (by decide) (by decide) (by decide) (by decide) (by decide) (by decide) (by decide)

/-- C6: a grep-family external-tool line generates the `LSS 2` success check
and the `GTR 1` escalation check, and no generated line of the block uses
the generic `EQU 0` / `NEQ 0` errorlevel pair. -/
theorem c6_grep_checks (st : St) (line : String) (input : List String)
    (h1 : startsWithStr (lowerStr line) "rem" = false)
    (h2 : hasSub line "%FM_PROG%" = false)
    (h3 : hasSub line "%PF_EXE" = true)
    (h4 : hasSub line "grep" = true) :
    (traiterLigne st line input).out =
      [line ++ " 2>> %JOURNAL%",
       "if %errorlevel% LSS 2 goto finSTEP" ++ toString (st.phase - 10),
       "if %errorlevel% GTR 1 set ERR=Erreur execution %NOMTRAIT% & set /a nberr = %nberr%+1",
       "if %nberr% EQU 1 call %PF_SCRIPT%\\sendMail.cmd %num_phase% %nom_job% & goto STEP" ++
         toString (st.phase - 10),
       "if %nberr% GTR 1 goto ERREUR",
       ":finSTEP" ++ toString (st.phase - 10),
       ""] ∧
    ∀ l ∈ (traiterLigne st line input).out.tail,
      startsWithStr l "if %errorlevel% EQU 0" = false ∧
      startsWithStr l "if %errorlevel% NEQ 0" = false := by
  have hout : (traiterLigne st line input).out =
      [line ++ " 2>> %JOURNAL%",
       "if %errorlevel% LSS 2 goto finSTEP" ++ toString (st.phase - 10),
       "if %errorlevel% GTR 1 set ERR=Erreur execution %NOMTRAIT% & set /a nberr = %nberr%+1",
       "if %nberr% EQU 1 call %PF_SCRIPT%\\sendMail.cmd %num_phase% %nom_job% & goto STEP" ++
         toString (st.phase - 10),
       "if %nberr% GTR 1 goto ERREUR",
       ":finSTEP" ++ toString (st.phase - 10),
       ""] := by
    unfold traiterLigne traiterCmdPfExe
    simp [h1, h2, h3, h4, blocRelance_expand]
    rfl
  refine ⟨hout, ?_⟩
  rw [hout]
  intro l hl
  simp only [List.tail_cons, List.mem_cons, List.mem_singleton, List.not_mem_nil, or_false] at hl
  rcases hl with rfl | rfl | rfl | rfl | rfl | rfl
  · exact ⟨rfl, rfl⟩
  · exact ⟨rfl, rfl⟩
  · exact ⟨rfl, rfl⟩
  · exact ⟨rfl, rfl⟩
  · exact ⟨rfl, rfl⟩
  · exact ⟨rfl, rfl⟩

/-- Witness for C6: grep scaffold evaluated on a concrete line at phase 10. -/
theorem c6_grep_checks_witness :
    (traiterLigne exSt "%PF_EXE%\\grep.exe pat f" []).out =
      ["%PF_EXE%\\grep.exe pat f 2>> %JOURNAL%",
       "if %errorlevel% LSS 2 goto finSTEP" ++ toString (exSt.phase - 10),
       "if %errorlevel% GTR 1 set ERR=Erreur execution %NOMTRAIT% & set /a nberr = %nberr%+1",
       "if %nberr% EQU 1 call %PF_SCRIPT%\\sendMail.cmd %num_phase% %nom_job% & goto STEP" ++
         toString (exSt.phase - 10),
       "if %nberr% GTR 1 goto ERREUR",
       ":finSTEP" ++ toString (exSt.phase - 10),
       ""] :=
  (c6_grep_checks exSt "%PF_EXE%\\grep.exe pat f" []
    (by decide) (by decide) (by decide) (by decide)).1

/-- C8: classification is total and never fails on line content: a line that
matches none of the classifier guards degrades to the opaque fallback and is
written through verbatim, with state and input untouched; and a source with
at least one non-blank line always yields a generated output (the engine
only reports failure on an empty source or on I/O errors, which live
outside the embedding). -/
theorem c8_never_fails :
    (∀ (st : St) (line : String) (input : List String),
      startsWithStr (lowerStr line) "rem" = false →
      hasSub line "%FM_PROG%" = false →
      hasSub line "%PF_EXE" = false →
      hasSub (lowerStr line) "forfiles" = false →
      startsWithStr (lowerStr line) "for " = false →
      startsWithStr (lowerStr line) "for%%" = false →
      CMDS_SIMPLES.any (fun c => startsWithStr (lowerStr line) c) = false →
      hasSub (lowerStr line) "call" = false →
      hasSub (lowerStr line) "program files" = false →
      startsWithStr (lowerStr line) "move" = false →
      startsWithStr (lowerStr line) "copy" = false →
      startsWithStr (lowerStr line) "del" = false →
      hasSub line "%PERL%" = false →
      traiterLigne st line input = ⟨[line], st, input, []⟩) ∧
    (∀ (g : St) (cfg : JobConfig) (input : List String) (l : String) (r : List String),
      lireLigne input = (some l, r) →
      (generer g cfg input).1.isSome = true) := by
  constructor
  · intro st line input h1 h2 h3 h4 h5 h6 h7 h8 h9 h10 h11 h12 h13
    unfold traiterLigne
    simp [h1, h2, h3, h4, h5, h6, h7, h8, h9, h10, h11, h12, h13]
  · intro g cfg input l r h
    unfold generer
    rw [h]
    rfl

/-- Witness for C8: a line matched by no classifier rule is passed through
verbatim, and a one-line source still generates an output script. -/
theorem c8_never_fails_witness :
    traiterLigne exSt "hello world" [] = ⟨["hello world"], exSt, [], []⟩ ∧
    (generer exSt exCfg ["j.cmd"]).1.isSome = true := by
  refine ⟨?_, ?_⟩
  · exact c8_never_fails.1 exSt "hello world" []
      (by decide) (by decide) (by decide) (by decide) (by decide) (by decide) (by decide)
      (by decide) (by decide) (by decide) (by decide) (by decide) (by decide)
  · exact c8_never_fails.2 exSt exCfg ["j.cmd"] "j.cmd" [] (by decide)

/-- C10: a managed `%FM_PROG%` line containing a retry-family keyword is
emitted with the journal redirect appended, except when the line contains
`pexport`, in which case the bare line is emitted; in both cases the same
standard retry scaffold (previous phase number, retry to the same phase)
follows. -/
theorem c10_relance_journal (st : St) (line : String) (input : List String)
    (h1 : startsWithStr (lowerStr line) "rem" = false)
    (h2 : hasSub line "%FM_PROG%" = true)
    (h3 : CMDS_RELANCE.any (fun c => hasSub line c) = true) :
    (hasSub line "pexport" = true →
      (traiterLigne st line input).out =
        line :: blocRelance (st.phase - 10) (st.phase - 10)) ∧
    (hasSub line "pexport" = false →
      (traiterLigne st line input).out =
        (line ++ " >> %JOURNAL% 2>&1 ") :: blocRelance (st.phase - 10) (st.phase - 10)) := by
  constructor
  · intro hp
    unfold traiterLigne traiterCmdFmProg
    simp [h1, h2, h3, hp]
  · intro hp
    unfold traiterLigne traiterCmdFmProg
    simp [h1, h2, h3, hp]

/-- Witness for C10: journal redirect behaviour on a `pexport` line and on a
`dchain` line at phase 10. -/
theorem c10_relance_journal_witness :
    (traiterLigne exSt "%FM_PROG%\\pexport.exe d" []).out =
      "%FM_PROG%\\pexport.exe d" :: blocRelance 0 0 ∧
    (traiterLigne exSt "%FM_PROG%\\dchain.exe d" []).out =
      ("%FM_PROG%\\dchain.exe d" ++ " >> %JOURNAL% 2>&1 ") :: blocRelance 0 0 := by
  refine ⟨?_, ?_⟩
  · exact (c10_relance_journal exSt "%FM_PROG%\\pexport.exe d" []
      (by decide) (by decide) (by decide)).1 (by decide)
  · exact (c10_relance_journal exSt "%FM_PROG%\\dchain.exe d" []
      (by decide) (by decide) (by decide)).2 (by decide)

/-- Python `split` produces one more field than the number of separators:
the split list is never empty. -/
lemma splitL_ne_nil (sep : Char) : ∀ l : List Char, splitL sep l ≠ []
  | [] => by simp [splitL]
  | c :: cs => by
    simp only [splitL]
    rcases h : splitL sep cs with _ | ⟨hd, tl⟩
    · simp [h]
    · simp [h]
      split <;> simp

/-- Python `split` produces exactly one more field than separators. -/
lemma splitL_length (sep : Char) : ∀ l : List Char,
    (splitL sep l).length = (l.filter (fun d => d == sep)).length + 1
  | [] => by simp [splitL]
  | c :: cs => by
    have ih := splitL_length sep cs
    simp only [splitL, List.filter]
    rcases h : splitL sep cs with _ | ⟨hd, tl⟩
    · exact absurd h (splitL_ne_nil sep cs)
    · rw [h] at ih
      simp only [List.length_cons] at ih
      by_cases hc : (c == sep) = true <;> simp [hc] <;> omega

/-- A line with at least two hyphens splits into at least three fields. -/
lemma splitOnCharS_shape (line : String) (h : countChar '-' line ≥ 2) :
    ∃ p0 p1 p2 t, splitOnCharS '-' line = p0 :: p1 :: p2 :: t := by
  have hlen : (splitOnCharS '-' line).length ≥ 3 := by
    unfold splitOnCharS countChar at *
    rw [List.length_map, splitL_length]
    omega
  rcases hl : splitOnCharS '-' line with _ | ⟨a, _ | ⟨b, _ | ⟨c, t⟩⟩⟩ <;>
    rw [hl] at hlen <;> simp at hlen
  · exact ⟨a, b, c, t, rfl⟩

/-- Counterexample for C2: a line of the exact form claimed,
`rem #--<treatment>-<label>`, is never recognized as a phase marker (the
recognizer tests character index 4, which is `#` here), so no `:STEP`, no
phase title and no `NOMTRAIT` assignment are emitted at all; and on a line
that is recognized, `set nberr=0` is driven by a keyword occurring anywhere
in the whole line (here in the treatment field `dbcheck`), not in the label
text (`Controle` contains no keyword), contradicting the claimed iff. -/
theorem c2_counterexample :
    traiterLigne exSt "rem #--dbcheck-Controle" ["x"] = ⟨[], exSt, ["x"], []⟩ ∧
    (traiterLigne exSt "rem -dbcheck-Controle" ["x"]).out.head? = some "set nberr=0" := by
  refine ⟨?_, ?_⟩ <;> decide

/-- C2 (amended): a line recognized as a phase marker (lowercased line
starts with `rem`, has length greater than 4, character index 4 is `-`, and
the line has at least two hyphens) produces, in order: `set nberr=0` iff
the whole line contains any keyword of the `CMDS_NBERR` family, then
`:STEP<n>`, then (between banner lines) the phase title
`set PHASE=<job> - <n> - <label>`, then `set num_phase=<n>`, then
`set NOMTRAIT=<treatment>`, where treatment and label are the second and
third hyphen-delimited fields; the phase counter advances by 10. -/
theorem c2_amended (st : St) (line : String) (input : List String)
    (h1 : startsWithStr (lowerStr line) "rem" = true)
    (h2 : line.length > 4)
    (h3 : charAtIs line 4 '-' = true)
    (h4 : countChar '-' line ≥ 2) :
    (traiterLigne st line input).out =
      (if CMDS_NBERR.any (fun s => hasSub line s) then ["set nberr=0"] else []) ++
      [":STEP" ++ toString st.phase,
       LIGNE_REM_4,
       "set PHASE=" ++ st.jobName ++ " - " ++ toString st.phase ++ " - " ++
         stripStr ((splitOnCharS '-' line).getD 2 ""),
       LIGNE_REM_4,
       "set num_phase=" ++ toString st.phase,
       "set NOMTRAIT=" ++ stripStr ((splitOnCharS '-' line).getD 1 ""),
       LIGNE_INF_1, ""] ∧
    (traiterLigne st line input).st.phase = st.phase + 10 := by
  obtain ⟨p0, p1, p2, t, hsp⟩ := splitOnCharS_shape line h4
  unfold traiterLigne traiterLigneRem
  rw [hsp]
  simp [h1, h2, h3, h4, hsp, LIGNE_SET_1]

/-- Witness for C2 (amended): full marker emission on a recognized marker
line whose treatment field is `dbcheck` and label is `Controle`. -/
theorem c2_amended_witness :
    (traiterLigne exSt "rem -dbcheck-Controle" ["x"]).out =
      (if CMDS_NBERR.any (fun s => hasSub "rem -dbcheck-Controle" s)
       then ["set nberr=0"] else []) ++
      [":STEP" ++ toString exSt.phase,
       LIGNE_REM_4,
       "set PHASE=" ++ exSt.jobName ++ " - " ++ toString exSt.phase ++ " - " ++
         stripStr ((splitOnCharS '-' "rem -dbcheck-Controle").getD 2 ""),
       LIGNE_REM_4,
       "set num_phase=" ++ toString exSt.phase,
       "set NOMTRAIT=" ++ stripStr ((splitOnCharS '-' "rem -dbcheck-Controle").getD 1 ""),
       LIGNE_INF_1, ""] ∧
    (traiterLigne exSt "rem -dbcheck-Controle" ["x"]).st.phase = exSt.phase + 10 :=
  c2_amended exSt "rem -dbcheck-Controle" ["x"]
    (by decide) (by decide) (by decide) (by decide)

/-- Counterexample for C5: `rem-a-b` has a hyphen as its fourth character
and two hyphens overall, so the claim classifies it as a phase marker, yet
the engine emits nothing for it (the recognizer tests index 4, which holds
`a`); and the plain comment `rem hello` is suppressed entirely rather than
passed through verbatim. -/
theorem c5_counterexample :
    traiterLigne exSt "rem-a-b" [] = ⟨[], exSt, [], []⟩ ∧
    traiterLigne exSt "rem hello" [] = ⟨[], exSt, [], []⟩ := by
  refine ⟨?_, ?_⟩ <;> decide

/-- C5 (amended): a body line whose lowercased text starts with `rem` is
treated as a phase marker iff its length exceeds 4, the character at index
4 (the fifth character) is a hyphen, and the line contains at least two
hyphens in total — in which case a primary phase is opened; otherwise the
comment line is suppressed: nothing is emitted and state and input are
unchanged (it is not passed through). -/
theorem c5_amended (st : St) (line : String) (input : List String)
    (h1 : startsWithStr (lowerStr line) "rem" = true) :
    ((line.length > 4 ∧ charAtIs line 4 '-' = true ∧ countChar '-' line ≥ 2) →
       (traiterLigne st line input).evs = [Ev.prim st.phase]) ∧
    (¬(line.length > 4 ∧ charAtIs line 4 '-' = true ∧ countChar '-' line ≥ 2) →
       traiterLigne st line input = ⟨[], st, input, []⟩) := by
  constructor
  · intro hc
    obtain ⟨p0, p1, p2, t, hsp⟩ := splitOnCharS_shape line hc.2.2
    unfold traiterLigne traiterLigneRem
    rw [hsp]
    simp [h1, hc.1, hc.2.1, hc.2.2]
  · intro hn
    unfold traiterLigne
    simp [h1, hn]

/-- Witness for C5 (amended): a recognized marker opens a primary phase and
an unrecognized `rem` comment is suppressed. -/
theorem c5_amended_witness :
    (traiterLigne exSt "rem -A-B" ["x"]).evs = [Ev.prim exSt.phase] ∧
    traiterLigne exSt "rem stuff" ["x"] = ⟨[], exSt, ["x"], []⟩ :=
  ⟨(c5_amended exSt "rem -A-B" ["x"] (by decide)).1 (by decide),
   (c5_amended exSt "rem stuff" ["x"] (by decide)).2 (by decide)⟩

/-- Counterexample for C4: a uniq-family line followed by a non-uniq line
(`echo hi`) consumes the looked-ahead line and drops it: the run's output
is just the uniq command with the standard scaffold, and `echo hi` appears
nowhere in the output, contradicting the claim that the lookahead line is
classified and emitted normally. -/
theorem c4_counterexample :
    (runBody exSt ["%PF_EXE%\\uniq.exe a b", "echo hi"]).out =
      ("%PF_EXE%\\uniq.exe a b" ++ " 2>> %JOURNAL%") :: blocRelance 0 0 ∧
    "echo hi" ∉ (runBody exSt ["%PF_EXE%\\uniq.exe a b", "echo hi"]).out := by
  refine ⟨?_, ?_⟩ <;> decide

/-- C4 (amended): a uniq-family external-tool line looks one line ahead.
If the next non-blank line is also uniq-family, exactly one intermediate
label block is produced: the first uniq branches success to the
intermediate label `STEP(phase-5)`, the intermediate label wraps the second
uniq with a full retry scaffold returning to the intermediate label.  If
the next line is not uniq-family, the first uniq gets the standard retry
scaffold and the looked-ahead line is consumed and discarded: it is
removed from the input and never emitted. -/
theorem c4_amended (st : St) (line : String) (input : List String)
    (h1 : startsWithStr (lowerStr line) "rem" = false)
    (h2 : hasSub line "%FM_PROG%" = false)
    (h3 : hasSub line "%PF_EXE" = true)
    (h4 : hasSub line "grep" = false)
    (h5 : hasSub line "uniq" = true) :
    (∀ next rest, lireLigne input = (some next, rest) → hasSub next "uniq" = true →
      traiterLigne st line input =
        ⟨[line ++ " 2>> %JOURNAL%",
          "if %errorlevel% EQU 0 goto STEP" ++ toString (st.phase - 5),
          "if %errorlevel% NEQ 0 set ERR=Erreur execution %NOMTRAIT% & set /a nberr = %nberr%+1",
          "if %nberr% EQU 1 call %PF_SCRIPT%\\sendMail.cmd %num_phase% %nom_job% & goto STEP" ++
            toString (st.phase - 10),
          "if %nberr% GTR 1 goto ERREUR",
          ":STEP" ++ toString (st.phase - 5),
          next ++ " 2>> %JOURNAL%"] ++ blocRelance (st.phase - 10) (st.phase - 5),
         incCmd st, rest, [Ev.inter (st.phase - 5)]⟩) ∧
    (∀ next rest, lireLigne input = (some next, rest) → hasSub next "uniq" = false →
      traiterLigne st line input =
        ⟨(line ++ " 2>> %JOURNAL%") :: blocRelance (st.phase - 10) (st.phase - 10),
         incCmd st, rest, []⟩) := by
  constructor
  · intro next rest hread hu
    unfold traiterLigne traiterCmdPfExe traiterUniq
    rw [hread]
    simp [h1, h2, h3, h4, h5, hu]
    rfl
  · intro next rest hread hu
    unfold traiterLigne traiterCmdPfExe traiterUniq
    rw [hread]
    simp [h1, h2, h3, h4, h5, hu]

/-- Witness for C4 (amended): both lookahead outcomes at phase 10. -/
theorem c4_amended_witness :
    traiterLigne exSt "%PF_EXE%\\uniq.exe a b" ["%PF_EXE%\\uniq.exe c d"] =
      ⟨["%PF_EXE%\\uniq.exe a b" ++ " 2>> %JOURNAL%",
        "if %errorlevel% EQU 0 goto STEP" ++ toString (exSt.phase - 5),
        "if %errorlevel% NEQ 0 set ERR=Erreur execution %NOMTRAIT% & set /a nberr = %nberr%+1",
        "if %nberr% EQU 1 call %PF_SCRIPT%\\sendMail.cmd %num_phase% %nom_job% & goto STEP" ++
          toString (exSt.phase - 10),
        "if %nberr% GTR 1 goto ERREUR",
        ":STEP" ++ toString (exSt.phase - 5),
        "%PF_EXE%\\uniq.exe c d" ++ " 2>> %JOURNAL%"] ++
          blocRelance (exSt.phase - 10) (exSt.phase - 5),
       incCmd exSt, [], [Ev.inter (exSt.phase - 5)]⟩ ∧
    traiterLigne exSt "%PF_EXE%\\uniq.exe a b" ["echo hi"] =
      ⟨("%PF_EXE%\\uniq.exe a b" ++ " 2>> %JOURNAL%") ::
         blocRelance (exSt.phase - 10) (exSt.phase - 10),
       incCmd exSt, [], []⟩ :=
  ⟨(c4_amended exSt "%PF_EXE%\\uniq.exe a b" ["%PF_EXE%\\uniq.exe c d"]
      (by decide) (by decide) (by decide) (by decide) (by decide)).1
      "%PF_EXE%\\uniq.exe c d" [] (by decide) (by decide),
   (c4_amended exSt "%PF_EXE%\\uniq.exe a b" ["echo hi"]
      (by decide) (by decide) (by decide) (by decide) (by decide)).2
      "echo hi" [] (by decide) (by decide)⟩

/-- Counterexample for C7: an unbalanced loop-open line followed by end of
input with no closing-parenthesis line does not fail: the scan stops
silently and the whole generation still completes and reports success. -/
theorem c7_counterexample :
    (generer exSt exCfg
      ["j.cmd", "A", "T", "D", "for %%i in (a b", "echo x"]).1.isSome = true := by
  rfl

/-- C7 (amended): inside an unbalanced loop block, a line consisting solely
of a closing parenthesis is emitted verbatim and terminates the scan;
premature end of input merely terminates the scan silently, and the whole
generation still completes successfully (it never fails on a truncated
block; only an empty source or I/O failure aborts a run). -/
theorem c7_amended :
    (∀ (fuel : Nat) (input rest : List String),
      lireLigne input = (some ")", rest) →
      forScan (fuel + 1) input = ([")"], rest)) ∧
    (∀ (fuel : Nat) (input rest : List String),
      lireLigne input = (none, rest) →
      forScan (fuel + 1) input = ([], rest)) ∧
    (∀ (g : St) (cfg : JobConfig) (input : List String) (l : String) (rest : List String),
      lireLigne input = (some l, rest) →
      (generer g cfg input).1.isSome = true) := by
  refine ⟨?_, ?_, ?_⟩
  · intro fuel input rest h
    unfold forScan
    rw [h]
    rfl
  · intro fuel input rest h
    unfold forScan
    rw [h]
  · intro g cfg input l rest h
    unfold generer
    rw [h]
    rfl

/-- Witness for C7 (amended): closing parenthesis ends the scan, end of
input ends the scan, and a non-empty source generates successfully. -/
theorem c7_amended_witness :
    forScan 1 [")"] = ([")"], []) ∧
    forScan 1 [] = ([], []) ∧
    (generer exSt exCfg ["u.cmd"]).1.isSome = true :=
  ⟨c7_amended.1 0 [")"] [] (by decide),
   c7_amended.2.1 0 [] [] (by decide),
   c7_amended.2.2 exSt exCfg ["u.cmd"] "u.cmd" [] (by decide)⟩

/-- C9: generation is deterministic in the input content and caller
metadata: the emitted output is independent of the generator object's
prior mutable state (which `generer` fully resets), so two runs on
identical input with identical configuration produce identical output. -/
theorem c9_deterministic (g1 g2 : St) (cfg : JobConfig) (input : List String) :
    (generer g1 cfg input).1 = (generer g2 cfg input).1 := by
  unfold generer
  rcases h : lireLigne input with ⟨_ | l, rest⟩
  · rfl
  · rfl

/-- Processing one line either records no phase event (phase unchanged),
opens one primary phase at the current counter (counter advances by 10),
or synthesizes one intermediate label at counter minus 5 (counter
unchanged). -/
lemma traiterLigne_phase_evs (st : St) (line : String) (input : List String) :
    ((traiterLigne st line input).evs = [] ∧ (traiterLigne st line input).st.phase = st.phase) ∨
    ((traiterLigne st line input).evs = [Ev.prim st.phase] ∧
      (traiterLigne st line input).st.phase = st.phase + 10) ∨
    ((traiterLigne st line input).evs = [Ev.inter (st.phase - 5)] ∧
      (traiterLigne st line input).st.phase = st.phase) := by
  by_cases h1 : startsWithStr (lowerStr line) "rem" = true
  · by_cases h2 : line.length > 4 ∧ charAtIs line 4 '-' = true ∧ countChar '-' line ≥ 2
    · obtain ⟨p0, p1, p2, t, hsp⟩ := splitOnCharS_shape line h2.2.2
      right; left
      unfold traiterLigne traiterLigneRem
      rw [hsp]
      simp [h1, h2.1, h2.2.1, h2.2.2]
    · left
      unfold traiterLigne
      simp [h1, h2]
  · by_cases h2 : hasSub line "%FM_PROG%" = true
    · left
      unfold traiterLigne traiterCmdFmProg incCmd
      simp [h1, h2]
    · by_cases h3 : hasSub line "%PF_EXE" = true
      · by_cases h4 : hasSub line "grep" = true
        · left
          unfold traiterLigne traiterCmdPfExe incCmd
          simp [h1, h2, h3, h4]
        · by_cases h5 : hasSub line "uniq" = true
          · unfold traiterLigne traiterCmdPfExe traiterUniq incCmd
            rcases h6 : lireLigne input with ⟨_ | next, rest⟩
            · left
              simp [h1, h2, h3, h4, h5, h6]
            · by_cases h7 : hasSub next "uniq" = true
              · right; right
                simp [h1, h2, h3, h4, h5, h6, h7]
              · left
                simp [h1, h2, h3, h4, h5, h6, h7]
          · by_cases h6 : (hasSub line "unix2dos" || hasSub line "touch") = true
            · left
              unfold traiterLigne traiterCmdPfExe incCmd
              simp [h1, h2, h3, h4, h5, h6]
            · left
              unfold traiterLigne traiterCmdPfExe incCmd
              simp [h1, h2, h3, h4, h5, h6]
      · left
        unfold traiterLigne traiterBoucleFor traiterMouvement incCmd
        simp [h1, h2, h3]
        repeat' split
        all_goals simp

/-- Projection lemma for the event filters. -/
lemma primsOf_append (a b : List Ev) : primsOf (a ++ b) = primsOf a ++ primsOf b :=
  List.filterMap_append a b _

/-- Projection lemma for the event filters. -/
lemma primsOf_prim_cons (n : Int) (evs : List Ev) :
    primsOf (Ev.prim n :: evs) = n :: primsOf evs := by simp [primsOf]

/-- Projection lemma for the event filters. -/
lemma primsOf_inter_cons (n : Int) (evs : List Ev) :
    primsOf (Ev.inter n :: evs) = primsOf evs := by simp [primsOf]

/-- Projection lemma for the event filters. -/
lemma intersOf_append (a b : List Ev) : intersOf (a ++ b) = intersOf a ++ intersOf b :=
  List.filterMap_append a b _

/-- Projection lemma for the event filters. -/
lemma intersOf_prim_cons (n : Int) (evs : List Ev) :
    intersOf (Ev.prim n :: evs) = intersOf evs := by simp [intersOf]

/-- Projection lemma for the event filters. -/
lemma intersOf_inter_cons (n : Int) (evs : List Ev) :
    intersOf (Ev.inter n :: evs) = n :: intersOf evs := by simp [intersOf]

/-- Invariant of the body loop: starting from counter `st.phase`, the i-th
primary phase equals `st.phase + 10 i`, every intermediate label equals
`st.phase + 10 k - 5` for some `k`, and the final counter is the start
plus ten times the number of primaries opened. -/
lemma bodyLoop_spec (fuel : Nat) : ∀ (st : St) (input : List String),
    (∀ (i : Nat) (p : Int), (primsOf (bodyLoop fuel st input).evs).get? i = some p →
       p = st.phase + 10 * i) ∧
    (∀ n ∈ intersOf (bodyLoop fuel st input).evs, ∃ k : Nat, n = st.phase + 10 * k - 5) ∧
    (bodyLoop fuel st input).st.phase =
      st.phase + 10 * (primsOf (bodyLoop fuel st input).evs).length := by
  induction fuel with
  | zero =>
    intro st input
    simp [bodyLoop, primsOf, intersOf]
  | succ fuel ih =>
    intro st input
    unfold bodyLoop
    rcases h : lireLigne input with ⟨_ | line, rest⟩
    · simp [primsOf, intersOf]
    · dsimp only
      have hr := traiterLigne_phase_evs st line rest
      have hb := ih (traiterLigne st line rest).st (traiterLigne st line rest).rest
      rcases hr with ⟨he, hp⟩ | ⟨he, hp⟩ | ⟨he, hp⟩
      · rw [hp] at hb
        refine ⟨?_, ?_, ?_⟩
        · intro i p hip
          rw [he] at hip
          simp only [List.nil_append] at hip
          exact hb.1 i p hip
        · intro n hn
          rw [he] at hn
          simp only [List.nil_append] at hn
          exact hb.2.1 n hn
        · rw [he]
          simp only [List.nil_append]
          exact hb.2.2
      · rw [hp] at hb
        refine ⟨?_, ?_, ?_⟩
        · intro i p hip
          rw [he] at hip
          simp only [List.cons_append, List.nil_append, primsOf_prim_cons] at hip
          cases i with
          | zero =>
            simp at hip
            omega
          | succ i =>
            simp only [List.get?_cons_succ] at hip
            have := hb.1 i p hip
            push_cast at this ⊢
            omega
        · intro n hn
          rw [he] at hn
          simp only [List.cons_append, List.nil_append, intersOf_prim_cons] at hn
          obtain ⟨k, hk⟩ := hb.2.1 n hn
          exact ⟨k + 1, by push_cast at hk ⊢; omega⟩
        · rw [he]
          simp only [List.cons_append, List.nil_append, primsOf_prim_cons, List.length_cons]
          have := hb.2.2
          push_cast at this ⊢
          omega
      · rw [hp] at hb
        refine ⟨?_, ?_, ?_⟩
        · intro i p hip
          rw [he] at hip
          simp only [List.cons_append, List.nil_append, primsOf_inter_cons] at hip
          exact hb.1 i p hip
        · intro n hn
          rw [he] at hn
          simp only [List.cons_append, List.nil_append, intersOf_inter_cons,
            List.mem_cons] at hn
          rcases hn with rfl | hn
          · exact ⟨0, by push_cast; omega⟩
          · exact hb.2.1 n hn
        · rw [he]
          simp only [List.cons_append, List.nil_append, primsOf_inter_cons]
          exact hb.2.2

/-- C3: over a whole run starting at counter `st.phase`, the i-th primary
phase number equals `st.phase + 10 i` (so successive phase markers
increase by exactly 10), every intermediate label equals the allocator's
counter at synthesis time minus 5 (`st.phase + 10 k - 5` for some `k`),
and no intermediate label ever equals any primary phase number of the same
run (they differ by 5 modulo 10). -/
theorem c3_phase_numbering (st : St) (input : List String) :
    (∀ (i : Nat) (p : Int), (primsOf (runBody st input).evs).get? i = some p →
       p = st.phase + 10 * i) ∧
    (∀ (i : Nat) (p q : Int), (primsOf (runBody st input).evs).get? i = some p →
       (primsOf (runBody st input).evs).get? (i + 1) = some q → q = p + 10) ∧
    (∀ n ∈ intersOf (runBody st input).evs, ∃ k : Nat, n = st.phase + 10 * k - 5) ∧
    (∀ n ∈ intersOf (runBody st input).evs, ∀ p ∈ primsOf (runBody st input).evs, n ≠ p) := by
  have hs := bodyLoop_spec input.length st input
  refine ⟨hs.1, ?_, hs.2.1, ?_⟩
  · intro i p q h1 h2
    have e1 := hs.1 i p h1
    have e2 := hs.1 (i + 1) q h2
    push_cast at e1 e2
    omega
  · intro n hn p hp
    obtain ⟨k, hk⟩ := hs.2.1 n hn
    obtain ⟨i, hi⟩ := List.get?_of_mem hp
    have := hs.1 i p hi
    push_cast at hk this
    omega

/-- Witness for C3: on `c3Input` from phase 10 the primaries are 10 and 20
and the single intermediate label is 15, which the theorem pins down. -/
theorem c3_phase_numbering_witness :
    (primsOf (runBody exSt c3Input).evs).get? 1 = some 20 ∧
    (20 : Int) = exSt.phase + 10 * (1 : Nat) ∧
    (15 : Int) ∈ intersOf (runBody exSt c3Input).evs ∧
    (15 : Int) ≠ (10 : Int) :=
  ⟨by decide,
   (c3_phase_numbering exSt c3Input).1 1 20 (by decide),
   by decide,
   (c3_phase_numbering exSt c3Input).2.2.2 15 (by decide) 10 (by decide)⟩
